import Mathlib

/-! Shallow embedding of the stage pipeline of `DEP Enrollment/Enrollment.py`.

The subject is the `__main__` while-loop (source lines 554-677) that drives
the eight provisioning stages keyed by the string cell `argv[5]`, under the
mode flag `argv[4]` (the value "DEP" means chained mode, anything else means
single-stage mode) and the exit flag `argv[6]` (the loop runs while it is
not "exit").  Each loop branch runs one stage body inside a try/except and
then either advances `argv[5]` to the next stage name (chained mode) or sets
`argv[6]` to "exit" (single mode); the last branch, `sysprefs`, sets the
exit flag unconditionally.  Stage bodies are external effects; they are
modelled by an event oracle stating, per loop iteration, which kind of
exception (if any) the stage body lets escape to the loop boundary. -/

/-- Kind of exception a stage body lets escape toward the loop boundary:
no exception, a `subprocess.CalledProcessError`, or any other `Exception`. -/
inductive ExcKind where
  | noError
  | calledProcessError
  | otherError
deriving DecidableEq

/-- External behaviour of one loop iteration.  `exc` is what the stage body
raises toward the try/except of the branch; `uncaughtExc` models, for the
`sysprefs` branch only, an exception raised by the code that runs after the
guarded block (the `location_services` call chain, source lines 671-676,
whose `CLLocationManager` query sits outside every handler). -/
structure StageEvent where
  exc : ExcKind
  uncaughtExc : Bool
deriving DecidableEq

/-- Outcome of one stage attempt as observed in the printed record: the
check-mark "Completed" line or the recorded failure reason. -/
inductive Outcome where
  | success
  | failure (reason : String)
deriving DecidableEq

/-- Record of one executed stage: the stage name and its outcome. -/
structure StageResult where
  stage : String
  outcome : Outcome
deriving DecidableEq

/-- Per-admin display metadata (source lines 538-548). -/
structure AdminInfo where
  display_name : String
  picture_address : String
  picture_filename : String
deriving DecidableEq

/-- State of the `__main__` loop: the three `argv` cells the loop reads or
writes, the module-level configuration set up on source lines 531-548, and
the accumulated run log of stage results (the printed record). -/
structure PipelineState where
  argv4 : String
  argv5 : String
  argv6 : String
  hostPfx : String
  computer_name : String
  mwa_address : String
  basic_auth_string_mwa : String
  admin_list : List String
  admins_to_prepare : List (String × AdminInfo)
  log : List StageResult
deriving DecidableEq

/-- The fixed chained order of the eight stage names, as hard-coded by the
chain of per-branch `argv[5]` assignments in the source. -/
def stageOrder : List String :=
  ["computer", "remotemanagement", "settings", "createmanifest",
   "beautifyadmin", "directorybinding", "munki", "sysprefs"]

/-- The failure reason each branch prints when its handler catches an
exception (source lines 561, 574-575, 586-588, 600, 612-613, 626-627,
639-640, 667-670).  The `settings` message reproduces the missing
space between the two adjacent string literals. -/
def failMsgOf : String → String
  | "computer" => "Unable to set computer name"
  | "remotemanagement" => "Unable to Harden Remote Management properly"
  | "settings" => "Unable to set settings for NTP Serverand Set Computer Name Daemon"
  | "createmanifest" => "Unable to create a munki manifest"
  | "beautifyadmin" => "Unable to add flair to the admin accounts."
  | "directorybinding" => "Unable to bind to Enterprise Active Directory"
  | "munki" => "Unable to install munki and trigger bootstrap"
  | "sysprefs" => "Unable to unlock all System Preference Panes specified"
  | _ => ""

/-- Outcome a try/except-guarded branch records: success when the body
raised nothing, otherwise the caught failure with the reason of the branch. -/
def branchOutcome (exc : ExcKind) (failMsg : String) : Outcome :=
  match exc with
  | ExcKind.noError => Outcome.success
  | _ => Outcome.failure failMsg

/-- Stage result a guarded branch appends to the log. -/
def mkResult (name : String) (exc : ExcKind) (failMsg : String) : StageResult :=
  ⟨name, branchOutcome exc failMsg⟩

/-- The per-branch advancement conditional repeated throughout the loop:
`if argv[4] == "DEP": argv[5] = next  else: argv[6] = "exit"`. -/
def advanceOrExit (st : PipelineState) (nxt : String) : PipelineState :=
  if st.argv4 = "DEP" then { st with argv5 := nxt } else { st with argv6 := "exit" }

/-- One iteration of the loop body (source lines 556-677).  The boolean is
true when an exception escaped every handler of the branch, killing the
process (possible only in the `directorybinding` branch, whose handler
catches `CalledProcessError` alone, and in the `sysprefs` branch, whose
location-services epilogue runs outside the guarded block).  When no branch
matches `argv[5]`, the body changes nothing. -/
def pipelineStep (st : PipelineState) (ev : StageEvent) : PipelineState × Bool :=
  match st.argv5 with
  | "computer" =>
    (advanceOrExit
      { st with log := st.log ++ [mkResult "computer" ev.exc (failMsgOf "computer")] }
      "remotemanagement", false)
  | "remotemanagement" =>
    (advanceOrExit
      { st with log := st.log ++ [mkResult "remotemanagement" ev.exc (failMsgOf "remotemanagement")] }
      "settings", false)
  | "settings" =>
    (advanceOrExit
      { st with log := st.log ++ [mkResult "settings" ev.exc (failMsgOf "settings")] }
      "createmanifest", false)
  | "createmanifest" =>
    (advanceOrExit
      { st with log := st.log ++ [mkResult "createmanifest" ev.exc (failMsgOf "createmanifest")] }
      "beautifyadmin", false)
  | "beautifyadmin" =>
    (advanceOrExit
      { st with log := st.log ++ [mkResult "beautifyadmin" ev.exc (failMsgOf "beautifyadmin")] }
      "directorybinding", false)
  | "directorybinding" =>
    if ev.exc = ExcKind.otherError then
      (st, true)
    else
      (advanceOrExit
        { st with log := st.log ++ [mkResult "directorybinding" ev.exc (failMsgOf "directorybinding")] }
        "munki", false)
  | "munki" =>
    (advanceOrExit
      { st with log := st.log ++ [mkResult "munki" ev.exc (failMsgOf "munki")] }
      "sysprefs", false)
  | "sysprefs" =>
    if ev.uncaughtExc then
      ({ st with log := st.log ++ [mkResult "sysprefs" ev.exc (failMsgOf "sysprefs")] }, true)
    else
      ({ st with argv6 := "exit",
                 log := st.log ++ [mkResult "sysprefs" ev.exc (failMsgOf "sysprefs")] }, false)
  | _ =>
    (st, false)

/-- How a run of the loop ends: the guard saw `argv[6] = "exit"`, or an
exception escaped every handler and killed the process. -/
inductive RunResult where
  | finished (st : PipelineState)
  | crashed (st : PipelineState)
deriving DecidableEq

/-- Final state carried by a run result. -/
def RunResult.state : RunResult → PipelineState
  | RunResult.finished st => st
  | RunResult.crashed st => st

/-- Fuelled interpreter for `while argv[6] != "exit"` (source line 554).
`none` means the fuel ran out before the loop ended; the event oracle is
consulted at the iteration counter `i`. -/
def runPipeline (events : Nat → StageEvent) : Nat → Nat → PipelineState → Option RunResult
  | 0, _, _ => none
  | fuel + 1, i, st =>
    if st.argv6 = "exit" then some (RunResult.finished st)
    else
      if (pipelineStep st (events i)).2 then
        some (RunResult.crashed (pipelineStep st (events i)).1)
      else
        runPipeline events fuel (i + 1) (pipelineStep st (events i)).1

/-- Computer-name construction on source line 97:
the format call joining the host-name pfx and the serial number with a dash. -/
def build_computer_name (pfx serial : String) : String := pfx ++ "-" ++ serial

/-- Loop entry state: the `argv` cells as supplied by the caller and the
module-level configuration constants of source lines 531-548, with an
empty run log. -/
def initState (serial mode stage exitFlag : String) : PipelineState :=
  { argv4 := mode
    argv5 := stage
    argv6 := exitFlag
    hostPfx := "Your Prefix Here"
    computer_name := build_computer_name "Your Prefix Here" serial
    mwa_address := "https://your.address.here:portnumber"
    basic_auth_string_mwa := "Basic: YourAuthTagHere"
    admin_list := ["admin1", "admin2"]
    admins_to_prepare :=
      [("admin1", ⟨"Display Name Here", "Web address of account Picture",
                   "Filename for picture downloaded"⟩),
       ("admin2", ⟨"Display Name Here", "Web address of account Picture",
                   "Filename for picture downloaded"⟩)]
    log := [] }

/-- Log of a run that finished normally (guard saw "exit"); `none` when the
run crashed or the fuel ran out. -/
def finishedLog (events : Nat → StageEvent) (fuel : Nat) (st : PipelineState) :
    Option (List StageResult) :=
  match runPipeline events fuel 0 st with
  | some (RunResult.finished stf) => some stf.log
  | _ => none

/-- Stage names, in execution order, of a run that finished normally. -/
def runStages (events : Nat → StageEvent) (fuel : Nat) (st : PipelineState) :
    Option (List String) :=
  Option.map (List.map StageResult.stage) (finishedLog events fuel st)

/-- The event is one the handlers of the named branch fully cover: an arbitrary
`Exception` everywhere, but only `CalledProcessError` in `directorybinding`,
and no epilogue exception in `sysprefs`. -/
def CaughtBy (stageName : String) (ev : StageEvent) : Prop :=
  (stageName = "directorybinding" → ev.exc ≠ ExcKind.otherError) ∧
  (stageName = "sysprefs" → ev.uncaughtExc = false)

instance (stageName : String) (ev : StageEvent) : Decidable (CaughtBy stageName ev) := by
  unfold CaughtBy; infer_instance

/-- Successor of a stage in the hard-coded chain of `argv[5]` assignments;
`none` for the last stage and for unrecognized names. -/
def nextStage : String → Option String
  | "computer" => some "remotemanagement"
  | "remotemanagement" => some "settings"
  | "settings" => some "createmanifest"
  | "createmanifest" => some "beautifyadmin"
  | "beautifyadmin" => some "directorybinding"
  | "directorybinding" => some "munki"
  | "munki" => some "sysprefs"
  | _ => none

/-- Advancement decision: move to a named stage, or end the loop. -/
inductive NextStageDecision where
  | advance (stage : String)
  | terminate
deriving DecidableEq

/-- Spec-side definition, following the words of the specification for the
`ModeResolver` contract: in chained mode advance to the successor in the
fixed order unless the current stage is the last, otherwise terminate; in
single mode always terminate.  Written for comparison with the advancement
behaviour extracted from the loop. -/
def modeResolverSpec (stage mode : String) : NextStageDecision :=
  if mode = "DEP" then
    match nextStage stage with
    | some nxt => NextStageDecision.advance nxt
    | none => NextStageDecision.terminate
  else NextStageDecision.terminate

/-- Advancement decision one loop iteration actually takes, read off the
control cells of the post-state. -/
def stepDecision (st : PipelineState) (ev : StageEvent) : NextStageDecision :=
  if (pipelineStep st ev).1.argv6 = "exit" then NextStageDecision.terminate
  else NextStageDecision.advance (pipelineStep st ev).1.argv5

/-- Number of stage results a run produced (zero when the fuel ran out). -/
def logLen : Option RunResult → Nat
  | some r => r.state.log.length
  | none => 0

/-- Two states agree on the mode flag and every configuration input: the
cells the loop is never supposed to write. -/
def SameConfig (a b : PipelineState) : Prop :=
  a.argv4 = b.argv4 ∧ a.hostPfx = b.hostPfx ∧ a.computer_name = b.computer_name ∧
  a.mwa_address = b.mwa_address ∧ a.basic_auth_string_mwa = b.basic_auth_string_mwa ∧
  a.admin_list = b.admin_list ∧ a.admins_to_prepare = b.admins_to_prepare

/-- Event assignment under which no stage body raises anything. -/
def noEventFailures : Nat → StageEvent := fun _ => ⟨ExcKind.noError, false⟩

/-- Event assignment under which every stage body raises an exception that
is not a `CalledProcessError`. -/
def allOtherErrorEvents : Nat → StageEvent := fun _ => ⟨ExcKind.otherError, false⟩

/-- Event assignment for the scenario where the fifth consulted stage body
(the `directorybinding` stage when starting from `remotemanagement`) raises
a `CalledProcessError` and everything else succeeds. -/
def bindFailureEvents : Nat → StageEvent :=
  fun i => if i = 4 then ⟨ExcKind.calledProcessError, false⟩ else ⟨ExcKind.noError, false⟩

/-! Helper lemmas shared by the claim theorems below. -/

/-- A branch whose body raised something records a failure carrying the
reason of that branch. -/
theorem branchOutcome_failure (exc : ExcKind) (m : String) (h : exc ≠ ExcKind.noError) :
    branchOutcome exc m = Outcome.failure m := by
  cases exc <;> simp_all [branchOutcome]

/-- When `argv[5]` matches no branch, the loop body changes nothing. -/
theorem unknown_step (st : PipelineState) (ev : StageEvent)
    (hs : st.argv5 ∉ stageOrder) : pipelineStep st ev = (st, false) := by
  simp [stageOrder] at hs
  obtain ⟨h1, h2, h3, h4, h5, h6, h7, h8⟩ := hs
  simp [pipelineStep, h1, h2, h3, h4, h5, h6, h7, h8]

/-- When `argv[5]` matches no branch and the exit flag is not set, the loop
never ends, whatever the fuel. -/
theorem unknown_run_none (st : PipelineState) (events : Nat → StageEvent)
    (hs : st.argv5 ∉ stageOrder) (h6 : st.argv6 ≠ "exit") :
    ∀ fuel i, runPipeline events fuel i st = none := by
  intro fuel
  induction fuel with
  | zero => intro i; rfl
  | succ n ih =>
      intro i
      simp only [runPipeline, unknown_step st (events i) hs, h6]
      simpa using ih (i + 1)

/-- Reflexivity of configuration agreement. -/
theorem sameConfig_refl (st : PipelineState) : SameConfig st st :=
  ⟨rfl, rfl, rfl, rfl, rfl, rfl, rfl⟩

/-- Transitivity of configuration agreement. -/
theorem sameConfig_trans {a b c : PipelineState}
    (h1 : SameConfig a b) (h2 : SameConfig b c) : SameConfig a c := by
  obtain ⟨x1, x2, x3, x4, x5, x6, x7⟩ := h1
  obtain ⟨y1, y2, y3, y4, y5, y6, y7⟩ := h2
  exact ⟨x1.trans y1, x2.trans y2, x3.trans y3, x4.trans y4,
         x5.trans y5, x6.trans y6, x7.trans y7⟩

/-- One loop iteration writes none of the configuration cells and never
changes the mode flag. -/
theorem step_sameConfig (st : PipelineState) (ev : StageEvent) :
    SameConfig (pipelineStep st ev).1 st := by
  obtain ⟨a4, a5, a6, p, c, mw, ba, al, ap, lg⟩ := st
  unfold SameConfig pipelineStep advanceOrExit
  split <;>
    first
      | exact ⟨rfl, rfl, rfl, rfl, rfl, rfl, rfl⟩
      | (split_ifs <;> exact ⟨rfl, rfl, rfl, rfl, rfl, rfl, rfl⟩)

/-- Any run, however it ends, leaves the configuration cells and the mode
flag exactly as they were at entry. -/
theorem run_sameConfig (events : Nat → StageEvent) :
    ∀ fuel i st r, runPipeline events fuel i st = some r →
    SameConfig r.state st := by
  intro fuel
  induction fuel with
  | zero => intro i st r h; cases h
  | succ n ih =>
      intro i st r h
      simp only [runPipeline] at h
      by_cases h6 : st.argv6 = "exit"
      · rw [if_pos h6] at h
        cases h
        exact sameConfig_refl st
      · rw [if_neg h6] at h
        by_cases hc : (pipelineStep st (events i)).2
        · rw [if_pos hc] at h
          cases h
          exact step_sameConfig st (events i)
        · rw [if_neg hc] at h
          exact sameConfig_trans (ih (i + 1) _ r h) (step_sameConfig st (events i))

/-- For a recognized stage handled without an uncaught exception, the
decision the loop takes agrees with the mode-resolver function of the pair
(stage, mode) alone. -/
theorem mode_decision_key (st : PipelineState) (ev : StageEvent)
    (hmem : st.argv5 ∈ stageOrder) (h6 : st.argv6 ≠ "exit") (hc : CaughtBy st.argv5 ev) :
    stepDecision st ev = modeResolverSpec st.argv5 st.argv4 := by
  obtain ⟨hdb, hsp⟩ := hc
  simp [stageOrder] at hmem
  by_cases h4 : st.argv4 = "DEP" <;>
    rcases hmem with h | h | h | h | h | h | h | h <;>
      simp [stepDecision, pipelineStep, advanceOrExit, modeResolverSpec, nextStage,
            h, h4, h6, hdb, hsp]

/-! Claim theorems. -/

/-- C1: in chained mode (`argv[4] = "DEP"`), starting at the first stage
`computer`, for every assignment of outcomes (success or caught failure) to
the stage bodies, the run finishes normally and its log lists all eight
stages exactly once, in the fixed order computer, remotemanagement,
settings, createmanifest, beautifyadmin, directorybinding, munki,
sysprefs. -/
theorem chained_runs_all_stages (serial exitFlag : String) (events : Nat → StageEvent)
    (h6 : exitFlag ≠ "exit")
    (hcaught : ∀ i, i < 8 → CaughtBy (stageOrder.getD i "") (events i)) :
    runStages events 9 (initState serial "DEP" "computer" exitFlag) = some stageOrder := by
  have hdb : (events 5).exc ≠ ExcKind.otherError := (hcaught 5 (by omega)).1 (by decide)
  have hsp : (events 7).uncaughtExc = false := (hcaught 7 (by omega)).2 (by decide)
  simp [runStages, finishedLog, runPipeline, pipelineStep, advanceOrExit, initState,
        mkResult, branchOutcome, stageOrder, h6, hdb, hsp]

theorem chained_runs_all_stages_witness :
    runStages noEventFailures 9 (initState "SER" "DEP" "computer" "start") = some stageOrder :=
  chained_runs_all_stages "SER" "start" noEventFailures (by decide)
    (fun _ _ => ⟨fun _ hx => ExcKind.noConfusion hx, fun _ => rfl⟩)

/-- C2 counterexample: in the `directorybinding` branch an exception that is
not a `CalledProcessError` escapes the handler (the crash flag is set) and
no failure outcome is recorded, refuting the claim that every stage-level
exception is caught and converted at the controller boundary. -/
theorem uncaught_binding_exception_cx :
    (pipelineStep (initState "S1" "DEP" "directorybinding" "go")
      ⟨ExcKind.otherError, false⟩).2 = true ∧
    (pipelineStep (initState "S1" "DEP" "directorybinding" "go")
      ⟨ExcKind.otherError, false⟩).1.log = [] := by
  decide

/-- C2 amended: for every stage and every exception the handlers of its branch
cover (any exception in six branches, only `CalledProcessError` in
`directorybinding`, and excluding an exception of the unguarded
location-services epilogue in `sysprefs`), the exception is contained at
the loop boundary and converted into exactly one recorded outcome for that
stage. -/
theorem covered_exceptions_recorded (st : PipelineState) (ev : StageEvent)
    (hs : st.argv5 ∈ stageOrder) (hc : CaughtBy st.argv5 ev) :
    (pipelineStep st ev).2 = false ∧
    (pipelineStep st ev).1.log = st.log ++ [mkResult st.argv5 ev.exc (failMsgOf st.argv5)] := by
  obtain ⟨hdb, hsp⟩ := hc
  simp [stageOrder] at hs
  rcases hs with h | h | h | h | h | h | h | h <;>
    constructor <;>
      simp [pipelineStep, advanceOrExit, h, hdb, hsp] <;>
      split_ifs <;> simp

theorem covered_exceptions_recorded_witness :
    (pipelineStep (initState "S7" "DEP" "computer" "go")
      ⟨ExcKind.calledProcessError, false⟩).2 = false ∧
    (pipelineStep (initState "S7" "DEP" "computer" "go")
      ⟨ExcKind.calledProcessError, false⟩).1.log =
      (initState "S7" "DEP" "computer" "go").log ++
        [mkResult "computer" ExcKind.calledProcessError (failMsgOf "computer")] :=
  covered_exceptions_recorded (initState "S7" "DEP" "computer" "go")
    ⟨ExcKind.calledProcessError, false⟩ (by decide) (by decide)

/-- C3 counterexample: started at the unrecognized stage name "launchpad",
the loop is still spinning after one thousand iterations; no fatal
pipeline-level error is ever reported and no terminating run (with or
without an empty log) is produced. -/
theorem unknown_start_never_reports_cx :
    runPipeline noEventFailures 1000 0 (initState "S3" "DEP" "launchpad" "go") = none :=
  unknown_run_none (initState "S3" "DEP" "launchpad" "go") noEventFailures
    (by decide) (by decide) 1000 0

/-- C3 amended: if the supplied starting stage name is not one of the eight
recognized identifiers, no stage operation ever executes and no log entry
is produced, but no fatal pipeline-level error is reported either: each
iteration leaves the state untouched and the loop never terminates. -/
theorem unknown_start_silent_nontermination (serial mode stage exitFlag : String)
    (events : Nat → StageEvent) (fuel : Nat)
    (hs : stage ∉ stageOrder) (h6 : exitFlag ≠ "exit") :
    runPipeline events fuel 0 (initState serial mode stage exitFlag) = none ∧
    pipelineStep (initState serial mode stage exitFlag) (events 0) =
      (initState serial mode stage exitFlag, false) :=
  ⟨unknown_run_none (initState serial mode stage exitFlag) events hs h6 fuel 0,
   unknown_step (initState serial mode stage exitFlag) (events 0) hs⟩

theorem unknown_start_silent_nontermination_witness :
    runPipeline noEventFailures 7 0 (initState "S5" "DEP" "notastage" "go") = none ∧
    pipelineStep (initState "S5" "DEP" "notastage" "go") (noEventFailures 0) =
      (initState "S5" "DEP" "notastage" "go", false) :=
  unknown_start_silent_nontermination "S5" "DEP" "notastage" "go" noEventFailures 7
    (by decide) (by decide)

/-- C4 counterexample: in chained mode, when the `directorybinding` stage
raises an exception that is not a `CalledProcessError`, the run aborts on
the spot: the result is a crash, nothing is recorded for the stage, and the
`munki` stage is never attempted. -/
theorem uncaught_binding_aborts_chain_cx :
    runPipeline allOtherErrorEvents 9 0 (initState "S2" "DEP" "directorybinding" "go") =
      some (RunResult.crashed (initState "S2" "DEP" "directorybinding" "go")) := by
  decide

/-- C4 amended: in chained mode, for every stage with a successor and every
error the handler of its branch covers (any exception in most branches, only
`CalledProcessError` in `directorybinding`), the run is not aborted: the
error is recorded as a failure with a non-empty reason, `argv[5]` moves to
the next stage in the fixed order and the exit flag is untouched, so the
next stage is still attempted. -/
theorem covered_failure_still_advances (st : PipelineState) (ev : StageEvent) (nxt : String)
    (h4 : st.argv4 = "DEP") (hn : nextStage st.argv5 = some nxt)
    (hc : CaughtBy st.argv5 ev) (he : ev.exc ≠ ExcKind.noError) :
    (pipelineStep st ev).2 = false ∧
    (pipelineStep st ev).1.log =
      st.log ++ [StageResult.mk st.argv5 (Outcome.failure (failMsgOf st.argv5))] ∧
    failMsgOf st.argv5 ≠ "" ∧
    (pipelineStep st ev).1.argv5 = nxt ∧
    (pipelineStep st ev).1.argv6 = st.argv6 := by
  obtain ⟨hdb, hsp⟩ := hc
  unfold nextStage at hn
  split at hn <;>
    first
      | (injection hn with hn; subst hn;
         refine ⟨?_, ?_, ?_, ?_, ?_⟩ <;>
           simp [pipelineStep, advanceOrExit, mkResult, failMsgOf,
                 branchOutcome_failure ev.exc _ he, *])
      | (cases hn)

theorem covered_failure_still_advances_witness :
    (pipelineStep (initState "S8" "DEP" "directorybinding" "go")
      ⟨ExcKind.calledProcessError, false⟩).2 = false ∧
    (pipelineStep (initState "S8" "DEP" "directorybinding" "go")
      ⟨ExcKind.calledProcessError, false⟩).1.log =
      (initState "S8" "DEP" "directorybinding" "go").log ++
        [StageResult.mk "directorybinding"
          (Outcome.failure (failMsgOf "directorybinding"))] ∧
    failMsgOf "directorybinding" ≠ "" ∧
    (pipelineStep (initState "S8" "DEP" "directorybinding" "go")
      ⟨ExcKind.calledProcessError, false⟩).1.argv5 = "munki" ∧
    (pipelineStep (initState "S8" "DEP" "directorybinding" "go")
      ⟨ExcKind.calledProcessError, false⟩).1.argv6 =
      (initState "S8" "DEP" "directorybinding" "go").argv6 :=
  covered_failure_still_advances (initState "S8" "DEP" "directorybinding" "go")
    ⟨ExcKind.calledProcessError, false⟩ "munki" (by decide) (by decide) (by decide) (by decide)

/-- C5 counterexample: in single mode, started at `directorybinding` with
the stage body raising an exception that is not a `CalledProcessError`, the
run does not record exactly one stage result: it crashes with zero results
recorded and no normally-terminating run log exists, refuting the claim
that every recognized starting stage in single mode yields exactly one
recorded StageResult. -/
theorem single_mode_uncaught_binding_cx :
    runPipeline allOtherErrorEvents 9 0 (initState "S10" "solo" "directorybinding" "go") =
      some (RunResult.crashed (initState "S10" "solo" "directorybinding" "go")) ∧
    logLen (runPipeline allOtherErrorEvents 9 0
      (initState "S10" "solo" "directorybinding" "go")) = 0 ∧
    runStages allOtherErrorEvents 9 (initState "S10" "solo" "directorybinding" "go") = none := by
  refine ⟨?_, ?_, ?_⟩ <;> decide

/-- C5 amended: in single mode (`argv[4]` anything but "DEP"), for every
recognized starting stage whose outcome is a success or a failure covered
by that branch handler, the run executes exactly that one stage, records
exactly one result (for that stage) and terminates without attempting the
successor; an uncovered error (a non-CalledProcessError exception in
`directorybinding`, or an exception of the unguarded `sysprefs` epilogue)
instead crashes the run. -/
theorem single_mode_one_stage (serial mode stage exitFlag : String)
    (events : Nat → StageEvent)
    (hm : mode ≠ "DEP") (hs : stage ∈ stageOrder) (h6 : exitFlag ≠ "exit")
    (hc : CaughtBy stage (events 0)) :
    runStages events 2 (initState serial mode stage exitFlag) = some [stage] := by
  obtain ⟨hdb, hsp⟩ := hc
  simp [stageOrder] at hs
  rcases hs with h | h | h | h | h | h | h | h <;> subst h <;>
    simp [runStages, finishedLog, runPipeline, pipelineStep, advanceOrExit, initState,
          mkResult, branchOutcome, hm, h6, hdb, hsp]

theorem single_mode_one_stage_witness :
    runStages noEventFailures 2 (initState "SER" "solo" "createmanifest" "start") =
      some ["createmanifest"] :=
  single_mode_one_stage "SER" "solo" "createmanifest" "start" noEventFailures
    (by decide) (by decide) (by decide) (by decide)

/-- C6 counterexample: with the unrecognized starting stage name "mystery"
the run does not end: after 256 iterations the loop is still spinning, so
the source does not "fall through to termination" on an unknown stage. -/
theorem unknown_stage_run_never_ends_cx :
    runPipeline noEventFailures 256 0 (initState "S4" "single" "mystery" "begin") = none :=
  unknown_run_none (initState "S4" "single" "mystery" "begin") noEventFailures
    (by decide) (by decide) 256 0

/-- C6 amended: passing an unrecognized starting stage name is silent — no
stage operation executes and no diagnostic is emitted — but the run does
not end: every iteration returns the state unchanged and the loop spins
forever instead of falling through to termination. -/
theorem unknown_stage_loops_forever (st : PipelineState) (events : Nat → StageEvent)
    (fuel i : Nat) (hs : st.argv5 ∉ stageOrder) (h6 : st.argv6 ≠ "exit") :
    pipelineStep st (events i) = (st, false) ∧ runPipeline events fuel i st = none :=
  ⟨unknown_step st (events i) hs, unknown_run_none st events hs h6 fuel i⟩

theorem unknown_stage_loops_forever_witness :
    pipelineStep (initState "S6" "other" "zzz" "run") (noEventFailures 3) =
      (initState "S6" "other" "zzz" "run", false) ∧
    runPipeline noEventFailures 9 3 (initState "S6" "other" "zzz" "run") = none :=
  unknown_stage_loops_forever (initState "S6" "other" "zzz" "run") noEventFailures 9 3
    (by decide) (by decide)

/-- C7: in chained mode starting at `remotemanagement`, if the
`directorybinding` stage fails (with the caught `CalledProcessError`) the
run still finishes with `sysprefs` as its last executed stage, exactly
seven stages are executed (remotemanagement through sysprefs inclusive),
and the `directorybinding` entry is recorded as a failure. -/
theorem chained_bind_failure_path (serial exitFlag : String)
    (events : Nat → StageEvent)
    (h6 : exitFlag ≠ "exit")
    (hdb : (events 4).exc = ExcKind.calledProcessError)
    (hsp : (events 6).uncaughtExc = false) :
    runStages events 9 (initState serial "DEP" "remotemanagement" exitFlag) =
      some ["remotemanagement", "settings", "createmanifest", "beautifyadmin",
            "directorybinding", "munki", "sysprefs"] ∧
    Option.bind (finishedLog events 9 (initState serial "DEP" "remotemanagement" exitFlag))
        (fun l => l[4]?) =
      some ⟨"directorybinding", Outcome.failure "Unable to bind to Enterprise Active Directory"⟩ := by
  constructor <;>
    simp [runStages, finishedLog, runPipeline, pipelineStep, advanceOrExit, initState,
          mkResult, branchOutcome, failMsgOf, h6, hdb, hsp]

theorem chained_bind_failure_path_witness :
    runStages bindFailureEvents 9 (initState "SER" "DEP" "remotemanagement" "start") =
      some ["remotemanagement", "settings", "createmanifest", "beautifyadmin",
            "directorybinding", "munki", "sysprefs"] ∧
    Option.bind (finishedLog bindFailureEvents 9 (initState "SER" "DEP" "remotemanagement" "start"))
        (fun l => l[4]?) =
      some ⟨"directorybinding", Outcome.failure "Unable to bind to Enterprise Active Directory"⟩ :=
  chained_bind_failure_path "SER" "start" bindFailureEvents (by decide) (by decide) (by decide)

/-- C8: the advancement decision is a pure, idempotent function of the pair
(current stage, mode): two iterations run from states that agree on
`argv[5]` and `argv[4]` — whatever their outcomes, logs or other state —
take the same decision, and that decision is exactly the mode-resolver
function of the pair. -/
theorem mode_decision_pure_idempotent (st1 st2 : PipelineState) (ev1 ev2 : StageEvent)
    (hmem : st1.argv5 ∈ stageOrder)
    (h5 : st1.argv5 = st2.argv5) (h4 : st1.argv4 = st2.argv4)
    (h61 : st1.argv6 ≠ "exit") (h62 : st2.argv6 ≠ "exit")
    (hc1 : CaughtBy st1.argv5 ev1) (hc2 : CaughtBy st2.argv5 ev2) :
    stepDecision st1 ev1 = stepDecision st2 ev2 ∧
    stepDecision st1 ev1 = modeResolverSpec st1.argv5 st1.argv4 := by
  have k1 := mode_decision_key st1 ev1 hmem h61 hc1
  have k2 := mode_decision_key st2 ev2 (h5 ▸ hmem) h62 hc2
  refine ⟨?_, k1⟩
  rw [k1, k2, h5, h4]

theorem mode_decision_pure_idempotent_witness :
    stepDecision (initState "A" "DEP" "settings" "go") ⟨ExcKind.noError, false⟩ =
      stepDecision (initState "B" "DEP" "settings" "run") ⟨ExcKind.otherError, false⟩ ∧
    stepDecision (initState "A" "DEP" "settings" "go") ⟨ExcKind.noError, false⟩ =
      modeResolverSpec "settings" "DEP" :=
  mode_decision_pure_idempotent
    (initState "A" "DEP" "settings" "go") (initState "B" "DEP" "settings" "run")
    ⟨ExcKind.noError, false⟩ ⟨ExcKind.otherError, false⟩
    (by decide) (by decide) (by decide) (by decide) (by decide) (by decide) (by decide)

/-- C9: a run never writes the configuration inputs (host-name prefix,
computed computer name, inventory address and credentials, admin account
list, per-admin display metadata) nor the mode flag `argv[4]`: whatever the
events and however the run ends, the final state agrees with the entry
state on all those cells — the loop writes only `argv[5]`, `argv[6]` and
the printed run log. -/
theorem config_and_mode_never_mutated (events : Nat → StageEvent) (fuel i : Nat)
    (st : PipelineState) (r : RunResult)
    (h : runPipeline events fuel i st = some r) :
    SameConfig r.state st :=
  run_sameConfig events fuel i st r h

theorem config_and_mode_never_mutated_witness :
    SameConfig (RunResult.state (RunResult.finished (initState "S9" "M" "munki" "exit")))
      (initState "S9" "M" "munki" "exit") :=
  config_and_mode_never_mutated noEventFailures 1 0 (initState "S9" "M" "munki" "exit")
    (RunResult.finished (initState "S9" "M" "munki" "exit")) (by decide)

/-- C10: for every recognized starting stage, in either mode and under
every assignment of events to the stage bodies, the loop ends within nine
guard checks — it never needs more than eight stage executions — and the
run log holds at most eight entries. -/
theorem pipeline_loop_terminates (serial mode stage exitFlag : String)
    (events : Nat → StageEvent)
    (hs : stage ∈ stageOrder) :
    (runPipeline events 9 0 (initState serial mode stage exitFlag)).isSome = true ∧
    logLen (runPipeline events 9 0 (initState serial mode stage exitFlag)) ≤ 8 := by
  by_cases h6 : exitFlag = "exit"
  · subst h6
    constructor <;> simp [runPipeline, initState, logLen, RunResult.state]
  · simp [stageOrder] at hs
    by_cases h4 : mode = "DEP"
    · subst h4
      rcases hs with h | h | h | h | h | h | h | h <;> subst h
      · by_cases e1 : (events 5).exc = ExcKind.otherError
        · simp [runPipeline, pipelineStep, advanceOrExit, initState, logLen, mkResult,
                RunResult.state, h6, e1]
        · by_cases e2 : (events 7).uncaughtExc <;>
            simp [runPipeline, pipelineStep, advanceOrExit, initState, logLen, mkResult,
                  RunResult.state, h6, e1, e2]
      · by_cases e1 : (events 4).exc = ExcKind.otherError
        · simp [runPipeline, pipelineStep, advanceOrExit, initState, logLen, mkResult,
                RunResult.state, h6, e1]
        · by_cases e2 : (events 6).uncaughtExc <;>
            simp [runPipeline, pipelineStep, advanceOrExit, initState, logLen, mkResult,
                  RunResult.state, h6, e1, e2]
      · by_cases e1 : (events 3).exc = ExcKind.otherError
        · simp [runPipeline, pipelineStep, advanceOrExit, initState, logLen, mkResult,
                RunResult.state, h6, e1]
        · by_cases e2 : (events 5).uncaughtExc <;>
            simp [runPipeline, pipelineStep, advanceOrExit, initState, logLen, mkResult,
                  RunResult.state, h6, e1, e2]
      · by_cases e1 : (events 2).exc = ExcKind.otherError
        · simp [runPipeline, pipelineStep, advanceOrExit, initState, logLen, mkResult,
                RunResult.state, h6, e1]
        · by_cases e2 : (events 4).uncaughtExc <;>
            simp [runPipeline, pipelineStep, advanceOrExit, initState, logLen, mkResult,
                  RunResult.state, h6, e1, e2]
      · by_cases e1 : (events 1).exc = ExcKind.otherError
        · simp [runPipeline, pipelineStep, advanceOrExit, initState, logLen, mkResult,
                RunResult.state, h6, e1]
        · by_cases e2 : (events 3).uncaughtExc <;>
            simp [runPipeline, pipelineStep, advanceOrExit, initState, logLen, mkResult,
                  RunResult.state, h6, e1, e2]
      · by_cases e1 : (events 0).exc = ExcKind.otherError
        · simp [runPipeline, pipelineStep, advanceOrExit, initState, logLen, mkResult,
                RunResult.state, h6, e1]
        · by_cases e2 : (events 2).uncaughtExc <;>
            simp [runPipeline, pipelineStep, advanceOrExit, initState, logLen, mkResult,
                  RunResult.state, h6, e1, e2]
      · by_cases e2 : (events 1).uncaughtExc <;>
          simp [runPipeline, pipelineStep, advanceOrExit, initState, logLen, mkResult,
                RunResult.state, h6, e2]
      · by_cases e2 : (events 0).uncaughtExc <;>
          simp [runPipeline, pipelineStep, advanceOrExit, initState, logLen, mkResult,
                RunResult.state, h6, e2]
    · rcases hs with h | h | h | h | h | h | h | h <;> subst h
      · simp [runPipeline, pipelineStep, advanceOrExit, initState, logLen, mkResult,
              RunResult.state, h6, h4]
      · simp [runPipeline, pipelineStep, advanceOrExit, initState, logLen, mkResult,
              RunResult.state, h6, h4]
      · simp [runPipeline, pipelineStep, advanceOrExit, initState, logLen, mkResult,
              RunResult.state, h6, h4]
      · simp [runPipeline, pipelineStep, advanceOrExit, initState, logLen, mkResult,
              RunResult.state, h6, h4]
      · simp [runPipeline, pipelineStep, advanceOrExit, initState, logLen, mkResult,
              RunResult.state, h6, h4]
      · by_cases e1 : (events 0).exc = ExcKind.otherError <;>
          simp [runPipeline, pipelineStep, advanceOrExit, initState, logLen, mkResult,
                RunResult.state, h6, h4, e1]
      · simp [runPipeline, pipelineStep, advanceOrExit, initState, logLen, mkResult,
              RunResult.state, h6, h4]
      · by_cases e2 : (events 0).uncaughtExc <;>
          simp [runPipeline, pipelineStep, advanceOrExit, initState, logLen, mkResult,
                RunResult.state, h6, e2]

theorem pipeline_loop_terminates_witness :
    (runPipeline allOtherErrorEvents 9 0 (initState "SER" "DEP" "computer" "start")).isSome = true ∧
    logLen (runPipeline allOtherErrorEvents 9 0 (initState "SER" "DEP" "computer" "start")) ≤ 8 :=
  pipeline_loop_terminates "SER" "DEP" "computer" "start" allOtherErrorEvents (by decide)
